import Mathlib

/-!
Verification of the session multiplexer in `scripts/crater_bidi_adapter.py`
(class `CraterBidiSession` and the snake_case-to-camelCase boundary
conversion in `ScriptModule`).

The Python code is shallowly embedded: JSON values become the inductive
`JVal`, the parsed incoming message dictionary becomes `RawMessage`
(optional fields mirror `dict.get`), the session object's mutable
attributes become the record `SessionState`, and each method becomes a
state-passing function.  A command's `asyncio.Future` is modelled as a
result slot (`SlotState`) keyed by the command identifier; event handler
callables are identified by natural numbers, and a handler raising an
exception is modelled by an environment `fails : Nat → Bool`.
-/

/-- JSON values as produced by `json.loads` / consumed by `json.dumps`.
Objects are ordered association lists, matching Python dict insertion
order. -/
inductive JVal where
  | null : JVal
  | bool (b : Bool) : JVal
  | num (n : Int) : JVal
  | str (s : String) : JVal
  | arr (elems : List JVal) : JVal
  | obj (fields : List (String × JVal)) : JVal


/-- A parsed incoming message, i.e. the dict `data = json.loads(message)`
in `_receive_messages`.  Each optional field models `"k" in data` /
`data.get("k")` for the keys the dispatch loop actually reads. -/
structure RawMessage where
  id? : Option Nat := none
  type? : Option String := none
  error? : Option String := none
  message? : Option String := none
  stacktrace? : Option String := none
  result? : Option JVal := none
  method? : Option String := none
  params? : Option JVal := none


/-- The state of the `asyncio.Future` created for one command: pending
until `set_result` / `set_exception` is called on it. -/
inductive SlotState where
  | pending : SlotState
  | resolvedOk (result : JVal) : SlotState
  | resolvedErr (code msg stacktrace : String) : SlotState


/-- The mutable attributes of a `CraterBidiSession` object.
`pending_commands` holds the keys of the `_pending_commands` dict;
`slots` records the result slot of every future ever placed in that
dict (keyed by command id); `event_listeners` is the `_event_listeners`
dict (method name to ordered handler list, handlers identified by `Nat`);
`ws_connected` models `_ws is not None` and `loop_set` models
`event_loop is not None`. -/
structure SessionState where
  command_id : Nat := 0
  pending_commands : List Nat := []
  slots : List (Nat × SlotState) := []
  event_listeners : List (String × List Nat) := []
  ws_connected : Bool := false
  loop_set : Bool := false


/-- Lookup in a string-keyed association list (Python dict access). -/
def lookupKey {α : Type} : List (String × α) → String → Option α
  | [], _ => none
  | (k0, v) :: rest, k => if k0 = k then some v else lookupKey rest k

/-- Lookup in a nat-keyed association list. -/
def lookupNat {α : Type} : List (Nat × α) → Nat → Option α
  | [], _ => none
  | (k0, v) :: rest, k => if k0 = k then some v else lookupNat rest k

/-- Record the resolution of command `i`'s future: `future.set_result` /
`future.set_exception` on the slot stored under `i`. -/
def resolveSlot (slots : List (Nat × SlotState)) (i : Nat) (r : SlotState) :
    List (Nat × SlotState) :=
  slots.map fun p => if p.1 = i then (p.1, r) else p

/-- The `for handler in self._event_listeners[method]` loop with its
per-handler `try/except`: every handler is invoked in order; a handler
whose call raises (per `fails`) only contributes a diagnostic (the
`print` in the `except` arm) and never stops the iteration.  Returns the
invocation trace (handler, method, params) and the diagnostics (failed
handlers). -/
def runHandlers (fails : Nat → Bool) (method : String) (params : JVal) :
    List Nat → List (Nat × String × JVal) × List Nat
  | [] => ([], [])
  | h :: rest =>
    let out := runHandlers fails method params rest
    ((h, method, params) :: out.1, if fails h then h :: out.2 else out.2)

/-- Result of dispatching one message: the successor session state, the
trace of event-handler invocations, and the diagnostics printed for
handlers that raised. -/
structure DispatchOutput where
  state : SessionState
  invocations : List (Nat × String × JVal)
  diagnostics : List Nat


/-- One iteration of the dispatch loop body in `_receive_messages`:
if the message has an `"id"` that is a pending command, pop it and
resolve its future (`set_exception` when `data.get("type") == "error"`,
else `set_result(data.get("result", {}))`); an unknown id is silently
discarded.  Otherwise, if `data.get("method")` is truthy (non-empty) and
registered, invoke each listener in order, isolating handler failures. -/
def handleMessage (fails : Nat → Bool) (s : SessionState) (data : RawMessage) :
    DispatchOutput :=
  match data.id? with
  | some cmd_id =>
    if cmd_id ∈ s.pending_commands then
      let s0 := { s with
        pending_commands := s.pending_commands.filter (fun x => x ≠ cmd_id) }
      if data.type? = some "error" then
        let error_code := data.error?.getD "unknown error"
        let error_msg := data.message?.getD "Unknown error"
        let stacktrace := data.stacktrace?.getD ""
        { state := { s0 with
            slots := resolveSlot s0.slots cmd_id
              (SlotState.resolvedErr error_code error_msg stacktrace) },
          invocations := [], diagnostics := [] }
      else
        { state := { s0 with
            slots := resolveSlot s0.slots cmd_id
              (SlotState.resolvedOk (data.result?.getD (JVal.obj []))) },
          invocations := [], diagnostics := [] }
    else
      { state := s, invocations := [], diagnostics := [] }
  | none =>
    match data.method? with
    | some method =>
      if method ≠ "" then
        match lookupKey s.event_listeners method with
        | some handlers =>
          let params := data.params?.getD (JVal.obj [])
          let out := runHandlers fails method params handlers
          { state := s, invocations := out.1, diagnostics := out.2 }
        | none => { state := s, invocations := [], diagnostics := [] }
      else { state := s, invocations := [], diagnostics := [] }
    | none => { state := s, invocations := [], diagnostics := [] }

/-- The exceptions relevant to `send_command`.  `attributeError` models
Python's `AttributeError` from calling a method on `None` (raised when
`event_loop` or `_ws` is `None`); `connectionError` models a transport
failure raised by `self._ws.send`.  The constructor `sessionNotActive`
is never produced by the code: it stands for the distinct
"session not active" error the specification asks for, so that theorems
can compare the code's actual failure against it. -/
inductive PyError where
  | attributeError (msg : String) : PyError
  | connectionError (msg : String) : PyError
  | sessionNotActive : PyError

/-- The method `send_command(method, params)`.  It increments
`_command_id`, serialises `{id, method, params}` (the serialised text
plays no further role in the state), creates a future on
`self.event_loop` (raising `AttributeError` when the loop is `None`,
i.e. `start` was never called), stores it in `_pending_commands`, and
awaits `self._ws.send(message)` — which raises `AttributeError` when
`_ws` is `None` (after `end`) and a transport error when the write
fails (`send_ok = false`).  An exception propagates to the caller with
the mutations made so far kept, so the result is the post-state paired
with either the assigned command id or the exception. -/
def send_command (send_ok : Bool) (s : SessionState)
    (_method : String) (_params : JVal) : SessionState × Except PyError Nat :=
  let cmd_id := s.command_id + 1
  let s1 := { s with command_id := cmd_id }
  if s1.loop_set then
    let s2 := { s1 with
      pending_commands := s1.pending_commands ++ [cmd_id],
      slots := s1.slots ++ [(cmd_id, SlotState.pending)] }
    if s2.ws_connected then
      if send_ok then (s2, Except.ok cmd_id)
      else (s2, Except.error (PyError.connectionError "send failed"))
    else
      (s2, Except.error (PyError.attributeError
        "NoneType object has no attribute send"))
  else
    (s1, Except.error (PyError.attributeError
      "NoneType object has no attribute create_future"))

/-- Update the handler list stored under key `k` (in place, keeping the
dict position), leaving every other key untouched. -/
def modifyHandlers (l : List (String × List Nat)) (k : String)
    (f : List Nat → List Nat) : List (String × List Nat) :=
  l.map fun p => if p.1 = k then (p.1, f p.2) else p

/-- The method `add_event_listener(event_name, handler)`: create the
entry `event_name -> []` if absent, then append the handler. -/
def add_event_listener (s : SessionState) (event_name : String)
    (handler : Nat) : SessionState :=
  let listeners :=
    match lookupKey s.event_listeners event_name with
    | none => s.event_listeners ++ [(event_name, [])]
    | some _ => s.event_listeners
  { s with event_listeners :=
      modifyHandlers listeners event_name (fun hs => hs ++ [handler]) }

/-- Python's `list.remove(x)`: delete the first occurrence of `x`. -/
def removeFirst : List Nat → Nat → List Nat
  | [], _ => []
  | x :: xs, h => if x = h then xs else x :: removeFirst xs h

/-- The closure `remove` returned by `add_event_listener`: a call
performs `if handler in self._event_listeners.get(event_name, []):
self._event_listeners[event_name].remove(handler)`.  The token is the
captured pair (event_name, handler). -/
def remove_listener (s : SessionState) (event_name : String)
    (handler : Nat) : SessionState :=
  match lookupKey s.event_listeners event_name with
  | some hs =>
    if handler ∈ hs then
      { s with event_listeners :=
          (modifyHandlers s.event_listeners event_name
            (fun l => removeFirst l handler)) }
    else s
  | none => s

/-- The ways the dispatch loop in `_receive_messages` terminates: the
connection closed (`websockets.exceptions.ConnectionClosed`) or the
task was cancelled by `end` (`asyncio.CancelledError`). -/
inductive LoopExit where
  | connectionClosed : LoopExit
  | cancelled : LoopExit

/-- The exception handlers at the bottom of `_receive_messages`: both
the `ConnectionClosed` arm and the `CancelledError` arm are `pass`, so
loop termination performs no state change whatsoever. -/
def receive_loop_exit (s : SessionState) (e : LoopExit) : SessionState :=
  match e with
  | LoopExit.connectionClosed => s
  | LoopExit.cancelled => s

/-- The method `end()`: cancel the receive task (whose
`CancelledError` handler runs, doing nothing), then close and clear
`_ws` when it is set. -/
def end_session (s : SessionState) : SessionState :=
  let s1 := receive_loop_exit s LoopExit.cancelled
  if s1.ws_connected then { s1 with ws_connected := false } else s1

/-- Issue `n` commands in sequence through `send_command` (successful
writes), collecting the assigned identifiers in issuance order.  An
exception stops the sequence. -/
def issue_commands : SessionState → Nat → SessionState × List Nat
  | s, 0 => (s, [])
  | s, n + 1 =>
    let r := send_command true s "session.status" (JVal.obj [])
    match r.2 with
    | Except.ok cmd_id =>
      let rest := issue_commands r.1 n
      (rest.1, cmd_id :: rest.2)
    | Except.error _ => (r.1, [])

/-- Split a character list at every underscore, the character-level body
of Python's `snake_str.split('_')` (splitting on every occurrence and
keeping empty pieces, with `[''] ` for the empty string). -/
def splitChars : List Char → List (List Char)
  | [] => [[]]
  | c :: cs =>
    if c = '_' then [] :: splitChars cs
    else
      match splitChars cs with
      | [] => [[c]]
      | w :: ws => (c :: w) :: ws

/-- Python's `snake_str.split('_')`. -/
def splitUnderscore (s : String) : List String :=
  (splitChars s.data).map String.mk

/-- One character step of Python's `str.title()` (ASCII model): an
alphabetic character is uppercased when it starts an alphabetic run and
lowercased otherwise; non-alphabetic characters pass through and end
the run. -/
def pyTitleGo : Bool → List Char → List Char
  | _, [] => []
  | prevAlpha, c :: cs =>
    if c.isAlpha then
      (if prevAlpha then c.toLower else c.toUpper) :: pyTitleGo true cs
    else c :: pyTitleGo false cs

/-- Python's `x.title()` on ASCII strings. -/
def pyTitle (s : String) : String :=
  String.mk (pyTitleGo false s.data)

/-- The method `ScriptModule._to_camel_case(snake_str)`: split on
underscores and rejoin, title-casing every component after the first. -/
def to_camel_case (snake_str : String) : String :=
  match splitUnderscore snake_str with
  | [] => ""
  | c :: rest => c ++ String.join (rest.map pyTitle)

/-- Python dict item assignment `d[k] = v` on an ordered association
list: overwrite in place when the key exists, else append. -/
def set_item {α : Type} (d : List (String × α)) (k : String) (v : α) :
    List (String × α) :=
  if (lookupKey d k).isSome then
    d.map fun p => if p.1 = k then (p.1, v) else p
  else d ++ [(k, v)]

/-- Python's `isinstance(value, dict)` on a JSON value. -/
def isDict : JVal → Bool
  | JVal.obj _ => true
  | _ => false

/-- The fields of a JSON object (the dict items), empty otherwise. -/
def asDict : JVal → List (String × JVal)
  | JVal.obj fields => fields
  | _ => []

/-- The method `ScriptModule._convert_serialization_options(opts)`:
rebuild the dict with each top-level key camel-cased, values untouched. -/
def convert_serialization_options (opts : List (String × JVal)) :
    List (String × JVal) :=
  opts.foldl (fun result kv => set_item result (to_camel_case kv.1) kv.2) []

/-- The kwargs loop shared by `ScriptModule.evaluate` and
`ScriptModule.call_function`: for each keyword argument, camel-case the
key; when the camel-cased key is `"serializationOptions"` and the value
is a dict, convert that dict's keys too; otherwise store the value
unchanged. -/
def apply_kwargs (params : List (String × JVal))
    (kwargs : List (String × JVal)) : List (String × JVal) :=
  kwargs.foldl
    (fun acc kv =>
      let camel_key := to_camel_case kv.1
      if camel_key = "serializationOptions" ∧ isDict kv.2 then
        set_item acc camel_key (JVal.obj (convert_serialization_options (asDict kv.2)))
      else set_item acc camel_key kv.2)
    params

/-- The params dict built by `ScriptModule.evaluate`: the three named
arguments, then the converted keyword arguments. -/
def evaluate_params (expression target await_promise : JVal)
    (kwargs : List (String × JVal)) : List (String × JVal) :=
  apply_kwargs
    [("expression", expression), ("target", target),
     ("awaitPromise", await_promise)]
    kwargs

/-- The effect of the kwargs loop on a single entry whose camel-cased
key is fresh: the key is respelled and only a serialization-options
dict value has its own top-level keys respelled. -/
def kwarg_transform (kv : String × JVal) : String × JVal :=
  let camel_key := to_camel_case kv.1
  if camel_key = "serializationOptions" ∧ isDict kv.2 then
    (camel_key, JVal.obj (convert_serialization_options (asDict kv.2)))
  else (camel_key, kv.2)


/-- A freshly constructed session (`__init__`): no connection, no event
loop, counter at zero, empty tables. -/
def fresh_session : SessionState := {}

/-- A started session (`start` succeeded): connection open, event loop
recorded, nothing pending yet. -/
def sampleActive : SessionState :=
  { command_id := 0, pending_commands := [], slots := [],
    event_listeners := [], ws_connected := true, loop_set := true }

/-- Session with one in-flight command, identifier 5. -/
def c5s : SessionState :=
  { command_id := 5, pending_commands := [5], slots := [(5, SlotState.pending)],
    event_listeners := [], ws_connected := true, loop_set := true }

/-- A success response for command 5. -/
def c5m : RawMessage := { id? := some 5, result? := some (JVal.str "ok") }

/-- Session with one in-flight command, identifier 3. -/
def c10s : SessionState :=
  { command_id := 3, pending_commands := [3], slots := [(3, SlotState.pending)],
    event_listeners := [], ws_connected := true, loop_set := true }

/-- A response for command 3 with an unusual type tag and no result. -/
def c10m : RawMessage := { id? := some 3, type? := some "success" }

/-- Session with one pending command and two handlers for
`"log.entryAdded"`. -/
def c7s : SessionState :=
  { command_id := 9, pending_commands := [9], slots := [(9, SlotState.pending)],
    event_listeners := [("log.entryAdded", [1, 2])],
    ws_connected := true, loop_set := true }

/-- A `"log.entryAdded"` event message. -/
def c7m : RawMessage :=
  { method? := some "log.entryAdded", params? := some (JVal.str "x") }

/-- Handler 1 raises, handler 2 does not. -/
def c7fails : Nat → Bool := fun h => h = 1

/-- An event message with a numeric payload. -/
def c8m : RawMessage :=
  { method? := some "log.entryAdded", params? := some (JVal.num 42) }

/-- Session with handler 7 registered twice for `"log.entryAdded"`
(the same callable added through two `add_event_listener` calls). -/
def c6s : SessionState :=
  add_event_listener (add_event_listener fresh_session "log.entryAdded" 7)
    "log.entryAdded" 7

/-- Session with handler 7 registered once. -/
def c6one : SessionState :=
  add_event_listener fresh_session "log.entryAdded" 7

/-- Keyword arguments for the C9 witness: an ordinary option and a
serialization-options dict. -/
def c9kwargs : List (String × JVal) :=
  [("result_ownership", JVal.str "root"),
   ("serialization_options", JVal.obj [("max_dom_depth", JVal.num 1)])]

/-- C1. The claim says that when the session stops or the dispatch loop
terminates, every still-pending command is resolved with a
connection-closed error.  The code does the opposite: both exception
arms of `_receive_messages` are `pass` and `end` only cancels the task
and closes the socket, so the pending table and every unresolved slot
are left exactly as they were — no pending command is ever resolved on
termination. -/
theorem C1_termination_resolves_nothing (s : SessionState) (e : LoopExit) :
    (end_session s).pending_commands = s.pending_commands ∧
    (end_session s).slots = s.slots ∧
    receive_loop_exit s e = s := by
  refine ⟨?_, ?_, ?_⟩
  · cases hws : s.ws_connected <;> simp [end_session, receive_loop_exit, hws]
  · cases hws : s.ws_connected <;> simp [end_session, receive_loop_exit, hws]
  · cases e <;> rfl

/-- C2. The claim says a failed write resolves the freshly allocated
slot with a transport error and removes it from the pending table.  In
the code the exception from `self._ws.send` simply propagates after
`self._pending_commands[cmd_id] = future` has run, so the command is
still in the pending table and its slot is still unresolved. -/
theorem C2_failed_send_leaves_pending (s : SessionState) (mth : String)
    (p : JVal) (h1 : s.loop_set = true) (h2 : s.ws_connected = true) :
    (send_command false s mth p).2 =
      Except.error (PyError.connectionError "send failed") ∧
    (s.command_id + 1) ∈ (send_command false s mth p).1.pending_commands ∧
    (s.command_id + 1, SlotState.pending) ∈ (send_command false s mth p).1.slots := by
  simp [send_command, h1, h2]

/-- Witness for C2 at a started session with no traffic yet. -/
theorem C2_witness :
    sampleActive.loop_set = true ∧ sampleActive.ws_connected = true ∧
    ((send_command false sampleActive "session.status" (JVal.obj [])).2 =
        Except.error (PyError.connectionError "send failed") ∧
      (sampleActive.command_id + 1) ∈
        (send_command false sampleActive "session.status" (JVal.obj [])).1.pending_commands ∧
      (sampleActive.command_id + 1, SlotState.pending) ∈
        (send_command false sampleActive "session.status" (JVal.obj [])).1.slots) :=
  ⟨rfl, rfl,
    C2_failed_send_leaves_pending sampleActive "session.status" (JVal.obj []) rfl rfl⟩

/-- C3, counterexample. On a session where `start` was never called,
`send_command` raises `AttributeError` (from `None.create_future()`),
which is not the distinct "session not active" error the claim
requires. -/
theorem C3_counterexample :
    (send_command true fresh_session "session.status" (JVal.obj [])).2 =
      Except.error (PyError.attributeError
        "NoneType object has no attribute create_future") ∧
    PyError.attributeError "NoneType object has no attribute create_future" ≠
      PyError.sessionNotActive := by
  refine ⟨rfl, ?_⟩
  intro h
  exact PyError.noConfusion h

/-- C3, amended: a `send_command` on a session that is not running
(no event loop because `start` was never called, or no connection
because `end` has run) does fail immediately and synchronously, but
with a generic `AttributeError` from the `None` attribute, not with a
distinct "session not active" error. -/
theorem C3_inactive_session_attribute_error (send_ok : Bool) (s : SessionState)
    (mth : String) (p : JVal)
    (h : s.loop_set = false ∨ s.ws_connected = false) :
    ∃ msg, (send_command send_ok s mth p).2 =
      Except.error (PyError.attributeError msg) := by
  rcases h with h | h
  · exact ⟨"NoneType object has no attribute create_future", by simp [send_command, h]⟩
  · by_cases hl : s.loop_set
    · exact ⟨"NoneType object has no attribute send", by simp [send_command, hl, h]⟩
    · exact ⟨"NoneType object has no attribute create_future",
        by simp [send_command, hl]⟩

/-- Witness for the amended C3 on a never-started session. -/
theorem C3_witness :
    (fresh_session.loop_set = false ∨ fresh_session.ws_connected = false) ∧
    ∃ msg, (send_command true fresh_session "session.status" (JVal.obj [])).2 =
      Except.error (PyError.attributeError msg) :=
  ⟨Or.inl rfl,
    C3_inactive_session_attribute_error true fresh_session "session.status"
      (JVal.obj []) (Or.inl rfl)⟩

/-- On a running session the identifiers handed out by `issue_commands`
are exactly the consecutive integers following the current counter. -/
theorem issue_commands_ids (n : Nat) : ∀ s : SessionState,
    s.loop_set = true → s.ws_connected = true →
    (issue_commands s n).2 = List.range' (s.command_id + 1) n := by
  induction n with
  | zero => intro s _ _; rfl
  | succ n ih =>
    intro s h1 h2
    have hsend : send_command true s "session.status" (JVal.obj []) =
        ({ s with
            command_id := s.command_id + 1,
            pending_commands := s.pending_commands ++ [s.command_id + 1],
            slots := s.slots ++ [(s.command_id + 1, SlotState.pending)] },
          Except.ok (s.command_id + 1)) := by
      simp [send_command, h1, h2]
    simp only [issue_commands, hsend]
    rw [List.range'_succ]
    congr 1
    exact ih _ h1 h2

/-- C4. Issuing any number of commands on a running session assigns the
consecutive identifiers above the current counter, which are strictly
increasing in issuance order and pairwise distinct, so no identifier is
ever reused. -/
theorem C4_ids_strictly_increasing (s : SessionState) (n : Nat)
    (h1 : s.loop_set = true) (h2 : s.ws_connected = true) :
    (issue_commands s n).2 = List.range' (s.command_id + 1) n ∧
    ((issue_commands s n).2).Pairwise (· < ·) ∧
    ((issue_commands s n).2).Nodup := by
  have hids := issue_commands_ids n s h1 h2
  refine ⟨hids, ?_, ?_⟩
  · rw [hids]; exact List.pairwise_lt_range' _ _
  · rw [hids]; exact List.nodup_range' _ _

/-- Witness for C4: three commands on a fresh running session get the
identifiers 1, 2, 3. -/
theorem C4_witness :
    sampleActive.loop_set = true ∧ sampleActive.ws_connected = true ∧
    ((issue_commands sampleActive 3).2 =
        List.range' (sampleActive.command_id + 1) 3 ∧
      ((issue_commands sampleActive 3).2).Pairwise (· < ·) ∧
      ((issue_commands sampleActive 3).2).Nodup) :=
  ⟨rfl, rfl, C4_ids_strictly_increasing sampleActive 3 rfl rfl⟩

/-- C5. Dispatching a response for a pending identifier removes the
entry from the pending table, so a later response bearing the same
identifier — like any response whose identifier has no matching pending
command — is silently discarded: the state is untouched, no handler
runs and no diagnostic is produced. -/
theorem C5_at_most_once_resolution (fails : Nat → Bool) (s : SessionState)
    (m1 m2 : RawMessage) (i : Nat)
    (h1 : m1.id? = some i) (h2 : m2.id? = some i)
    (hp : i ∈ s.pending_commands) :
    i ∉ (handleMessage fails s m1).state.pending_commands ∧
    handleMessage fails (handleMessage fails s m1).state m2 =
      { state := (handleMessage fails s m1).state,
        invocations := [], diagnostics := [] } ∧
    ∀ t : SessionState, i ∉ t.pending_commands →
      handleMessage fails t m2 =
        { state := t, invocations := [], diagnostics := [] } := by
  have hdisc : ∀ t : SessionState, i ∉ t.pending_commands →
      handleMessage fails t m2 =
        { state := t, invocations := [], diagnostics := [] } := by
    intro t ht
    simp only [handleMessage, h2]
    rw [if_neg ht]
  have hnot : i ∉ (handleMessage fails s m1).state.pending_commands := by
    simp only [handleMessage, h1]
    rw [if_pos hp]
    by_cases hty : m1.type? = some "error" <;>
      simp [hty, List.mem_filter]
  exact ⟨hnot, hdisc _ hnot, hdisc⟩

/-- Witness for C5: delivering the same response for command 5 twice. -/
theorem C5_witness :
    c5m.id? = some 5 ∧ (5 : Nat) ∈ c5s.pending_commands ∧
    (5 ∉ (handleMessage (fun _ => false) c5s c5m).state.pending_commands ∧
      handleMessage (fun _ => false)
          (handleMessage (fun _ => false) c5s c5m).state c5m =
        { state := (handleMessage (fun _ => false) c5s c5m).state,
          invocations := [], diagnostics := [] } ∧
      ∀ t : SessionState, 5 ∉ t.pending_commands →
        handleMessage (fun _ => false) t c5m =
          { state := t, invocations := [], diagnostics := [] }) :=
  ⟨rfl, by decide,
    C5_at_most_once_resolution (fun _ => false) c5s c5m c5m 5 rfl rfl (by decide)⟩

/-- Updating slot `i` makes its lookup return the new resolution,
provided a slot is stored under `i` at all. -/
theorem lookupNat_resolveSlot (i : Nat) (r : SlotState) :
    ∀ slots : List (Nat × SlotState), (lookupNat slots i).isSome = true →
    lookupNat (resolveSlot slots i r) i = some r
  | [], h => by simp [lookupNat] at h
  | (k, v) :: rest, h => by
    simp only [resolveSlot, List.map_cons]
    by_cases hk : k = i
    · subst hk
      have hf : (if (k, v).1 = k then ((k, v).1, r) else (k, v)) = (k, r) := by
        simp
      rw [hf]
      simp [lookupNat]
    · have hf : (if (k, v).1 = i then ((k, v).1, r) else (k, v)) = (k, v) := by
        simp [hk]
      rw [hf]
      simp only [lookupNat, hk, if_false] at h ⊢
      simpa only [resolveSlot] using lookupNat_resolveSlot i r rest h

/-- C10. A response bearing a pending identifier whose `"type"` is not
the string `"error"` — absent or anything else — resolves the matching
slot as a success with the message's `"result"` value, defaulting to
the empty object, and removes the pending entry. -/
theorem C10_non_error_resolves_success (fails : Nat → Bool)
    (s : SessionState) (m : RawMessage) (i : Nat)
    (h1 : m.id? = some i) (hp : i ∈ s.pending_commands)
    (ht : m.type? ≠ some "error")
    (hsl : (lookupNat s.slots i).isSome = true) :
    lookupNat (handleMessage fails s m).state.slots i =
      some (SlotState.resolvedOk (m.result?.getD (JVal.obj []))) ∧
    i ∉ (handleMessage fails s m).state.pending_commands := by
  constructor
  · simp only [handleMessage, h1]
    rw [if_pos hp, if_neg ht]
    exact lookupNat_resolveSlot i _ _ hsl
  · simp only [handleMessage, h1]
    rw [if_pos hp, if_neg ht]
    simp [List.mem_filter]

/-- Witness for C10: a `"success"`-typed response with no `"result"`
resolves command 3 with the empty object. -/
theorem C10_witness :
    c10m.id? = some 3 ∧ (3 : Nat) ∈ c10s.pending_commands ∧
    c10m.type? ≠ some "error" ∧ (lookupNat c10s.slots 3).isSome = true ∧
    (lookupNat (handleMessage (fun _ => false) c10s c10m).state.slots 3 =
        some (SlotState.resolvedOk (c10m.result?.getD (JVal.obj []))) ∧
      3 ∉ (handleMessage (fun _ => false) c10s c10m).state.pending_commands) :=
  ⟨rfl, by decide, by decide, rfl,
    C10_non_error_resolves_success (fun _ => false) c10s c10m 3 rfl
      (by decide) (by decide) rfl⟩

/-- Closed form of the handler loop: the invocation trace covers every
registered handler in order and the diagnostics are exactly the
handlers that raised. -/
theorem runHandlers_eq (fails : Nat → Bool) (mth : String) (p : JVal) :
    ∀ hs : List Nat,
    runHandlers fails mth p hs =
      (hs.map (fun h => (h, mth, p)), hs.filter fails)
  | [] => rfl
  | h :: rest => by
    simp [runHandlers, runHandlers_eq fails mth p rest, List.filter_cons]

/-- C7. Delivering an event to the handlers registered for its method
invokes every one of them in registration order with the method name
and parameters, leaves the session state (pending table, slots,
registry) untouched, and reports the raising handlers only as
diagnostics — whatever subset of handlers fails. -/
theorem C7_handler_isolation (fails : Nat → Bool) (s : SessionState)
    (m : RawMessage) (mth : String) (hs : List Nat)
    (hid : m.id? = none) (hm : m.method? = some mth) (hne : mth ≠ "")
    (hl : lookupKey s.event_listeners mth = some hs) :
    (handleMessage fails s m).state = s ∧
    (handleMessage fails s m).invocations =
      hs.map (fun h => (h, mth, m.params?.getD (JVal.obj []))) ∧
    (handleMessage fails s m).diagnostics = hs.filter fails := by
  simp [handleMessage, hid, hm, hne, hl, runHandlers_eq]

/-- Witness for C7: the first handler raising does not stop the second
from being invoked and changes no state. -/
theorem C7_witness :
    c7m.id? = none ∧ c7m.method? = some "log.entryAdded" ∧
    "log.entryAdded" ≠ "" ∧
    lookupKey c7s.event_listeners "log.entryAdded" = some [1, 2] ∧
    ((handleMessage c7fails c7s c7m).state = c7s ∧
      (handleMessage c7fails c7s c7m).invocations =
        [1, 2].map (fun h => (h, "log.entryAdded", c7m.params?.getD (JVal.obj []))) ∧
      (handleMessage c7fails c7s c7m).diagnostics = [1, 2].filter c7fails) :=
  ⟨rfl, rfl, by decide, by simp [c7s, lookupKey],
    C7_handler_isolation c7fails c7s c7m "log.entryAdded" [1, 2] rfl rfl
      (by decide) (by simp [c7s, lookupKey])⟩

/-- Updating the handler list stored under `k` is seen by a lookup of
`k` as applying the update function to the previous value. -/
theorem lookupKey_modifyHandlers (k : String) (f : List Nat → List Nat) :
    ∀ l : List (String × List Nat),
    lookupKey (modifyHandlers l k f) k = (lookupKey l k).map f
  | [] => rfl
  | (k0, hs) :: rest => by
    simp only [modifyHandlers, List.map_cons]
    by_cases hk : k0 = k
    · subst hk
      have hf : (if (k0, hs).1 = k0 then ((k0, hs).1, f (k0, hs).2) else (k0, hs)) =
          (k0, f hs) := by simp
      rw [hf]
      simp [lookupKey]
    · have hf : (if (k0, hs).1 = k then ((k0, hs).1, f (k0, hs).2) else (k0, hs)) =
          (k0, hs) := by simp [hk]
      rw [hf]
      simp only [lookupKey, hk, if_false]
      simpa only [modifyHandlers] using lookupKey_modifyHandlers k f rest

/-- Looking up a key that misses the first list continues in the
second. -/
theorem lookupKey_append_of_none {α : Type} (k : String) :
    ∀ l1 l2 : List (String × α), lookupKey l1 k = none →
    lookupKey (l1 ++ l2) k = lookupKey l2 k
  | [], _, _ => rfl
  | (k0, v) :: rest, l2, h => by
    by_cases hk : k0 = k
    · simp [lookupKey, hk] at h
    · simp only [List.cons_append, lookupKey, hk, if_false] at h ⊢
      exact lookupKey_append_of_none k rest l2 h

/-- The effect of `add_event_listener` on the lookup of its own method
name: the handler is appended to the previous list (empty when the
method had no entry). -/
theorem add_event_listener_lookup (s : SessionState) (event_name : String)
    (handler : Nat) :
    lookupKey (add_event_listener s event_name handler).event_listeners
        event_name =
      some ((lookupKey s.event_listeners event_name).getD [] ++ [handler]) := by
  unfold add_event_listener
  cases hl : lookupKey s.event_listeners event_name with
  | none =>
    simp only [hl]
    rw [lookupKey_modifyHandlers,
      lookupKey_append_of_none event_name s.event_listeners
        [(event_name, [])] hl]
    simp [lookupKey]
  | some hs =>
    simp only [hl]
    rw [lookupKey_modifyHandlers]
    simp [hl]

/-- C8. Registering H1, H2, H3 (in that order) for a method with no
previous handlers and delivering one event for that method invokes H1,
then H2, then H3, each with the same method name and the same
parameter payload. -/
theorem C8_fanout_order (fails : Nat → Bool) (s0 : SessionState)
    (m : RawMessage) (mth : String) (h1 h2 h3 : Nat)
    (hid : m.id? = none) (hm : m.method? = some mth) (hne : mth ≠ "")
    (h0 : lookupKey s0.event_listeners mth = none) :
    (handleMessage fails
        (add_event_listener
          (add_event_listener (add_event_listener s0 mth h1) mth h2) mth h3)
        m).invocations =
      [(h1, mth, m.params?.getD (JVal.obj [])),
       (h2, mth, m.params?.getD (JVal.obj [])),
       (h3, mth, m.params?.getD (JVal.obj []))] := by
  have l1 := add_event_listener_lookup s0 mth h1
  rw [h0] at l1
  simp only [Option.getD_none, List.nil_append] at l1
  have l2 := add_event_listener_lookup (add_event_listener s0 mth h1) mth h2
  rw [l1] at l2
  simp only [Option.getD_some] at l2
  have l3 := add_event_listener_lookup
    (add_event_listener (add_event_listener s0 mth h1) mth h2) mth h3
  rw [l2] at l3
  simp only [Option.getD_some] at l3
  simp [handleMessage, hid, hm, hne, l3, runHandlers_eq]

/-- Witness for C8 with handlers 1, 2, 3 on a fresh session. -/
theorem C8_witness :
    c8m.id? = none ∧ c8m.method? = some "log.entryAdded" ∧
    "log.entryAdded" ≠ "" ∧
    lookupKey fresh_session.event_listeners "log.entryAdded" = none ∧
    (handleMessage (fun _ => false)
        (add_event_listener
          (add_event_listener
            (add_event_listener fresh_session "log.entryAdded" 1)
            "log.entryAdded" 2)
          "log.entryAdded" 3)
        c8m).invocations =
      [(1, "log.entryAdded", c8m.params?.getD (JVal.obj [])),
       (2, "log.entryAdded", c8m.params?.getD (JVal.obj [])),
       (3, "log.entryAdded", c8m.params?.getD (JVal.obj []))] :=
  ⟨rfl, rfl, by decide, rfl,
    C8_fanout_order (fun _ => false) fresh_session c8m "log.entryAdded" 1 2 3
      rfl rfl (by decide) rfl⟩

/-- C6, counterexample. With handler 7 registered twice, the first call
of one removal token leaves one registration, and calling the same
token a second time removes that remaining registration as well —
because the closure tests membership by handler identity, the second
call is not a no-op and detaches a registration beyond the one the
token denotes. -/
theorem C6_counterexample :
    lookupKey (remove_listener c6s "log.entryAdded" 7).event_listeners
        "log.entryAdded" = some [7] ∧
    lookupKey
        (remove_listener (remove_listener c6s "log.entryAdded" 7)
          "log.entryAdded" 7).event_listeners
        "log.entryAdded" = some [] := by
  exact ⟨rfl, rfl⟩

/-- Removing a handler that is not registered for the method is a
no-op. -/
theorem remove_listener_no_op {s : SessionState} {e : String} {h : Nat}
    {hs : List Nat} (hl : lookupKey s.event_listeners e = some hs)
    (hm : h ∉ hs) : remove_listener s e h = s := by
  simp [remove_listener, hl, hm]

/-- Removing from a method with no registry entry is a no-op. -/
theorem remove_listener_no_entry {s : SessionState} {e : String} {h : Nat}
    (hl : lookupKey s.event_listeners e = none) :
    remove_listener s e h = s := by
  simp [remove_listener, hl]

/-- Deleting the first occurrence of a handler that occurs at most once
leaves a list not containing that handler. -/
theorem notMem_removeFirst_of_count_le_one (h : Nat) :
    ∀ hs : List Nat, hs.count h ≤ 1 → h ∉ removeFirst hs h
  | [], _ => by simp [removeFirst]
  | x :: xs, hc => by
    by_cases hx : x = h
    · subst hx
      simp only [removeFirst, if_pos rfl]
      rw [List.count_cons_self] at hc
      have hz : xs.count x = 0 := by omega
      exact List.count_eq_zero.mp hz
    · simp only [removeFirst, if_neg hx]
      rw [List.count_cons_of_ne (Ne.symm hx)] at hc
      intro hmem
      rcases List.mem_cons.mp hmem with h1 | h1
      · exact hx h1.symm
      · exact notMem_removeFirst_of_count_le_one h xs hc h1

/-- C6, amended: calling a removal token never raises, and when the
handler it closes over occurs at most once in its method's handler
list, a second call of the token is a no-op.  (When the same handler is
registered several times, each call removes one further occurrence —
the counterexample above.) -/
theorem C6_remove_idempotent_when_unique (s : SessionState)
    (event_name : String) (handler : Nat)
    (hcount :
      ((lookupKey s.event_listeners event_name).getD []).count handler ≤ 1) :
    remove_listener (remove_listener s event_name handler) event_name handler =
      remove_listener s event_name handler := by
  cases hl : lookupKey s.event_listeners event_name with
  | none =>
    have h1 := remove_listener_no_entry (s := s) (e := event_name)
      (h := handler) hl
    rw [h1]
    exact h1
  | some hs =>
    by_cases hmem : handler ∈ hs
    · have hlist : (remove_listener s event_name handler).event_listeners =
          modifyHandlers s.event_listeners event_name
            (fun l => removeFirst l handler) := by
        simp [remove_listener, hl, hmem]
      have hlook : lookupKey
          (remove_listener s event_name handler).event_listeners event_name =
          some (removeFirst hs handler) := by
        rw [hlist, lookupKey_modifyHandlers, hl]
        rfl
      have hnot : handler ∉ removeFirst hs handler := by
        apply notMem_removeFirst_of_count_le_one
        simpa [hl] using hcount
      exact remove_listener_no_op hlook hnot
    · have h1 := remove_listener_no_op hl hmem
      rw [h1]
      exact h1

/-- Witness for the amended C6: with a single registration, calling the
token twice equals calling it once. -/
theorem C6_witness :
    ((lookupKey c6one.event_listeners "log.entryAdded").getD []).count 7 ≤ 1 ∧
    remove_listener (remove_listener c6one "log.entryAdded" 7)
        "log.entryAdded" 7 =
      remove_listener c6one "log.entryAdded" 7 :=
  ⟨by decide,
    C6_remove_idempotent_when_unique c6one "log.entryAdded" 7 (by decide)⟩

/-- Assigning to a key that is absent from the dict appends the pair. -/
theorem set_item_of_none {α : Type} (d : List (String × α)) (k : String)
    (v : α) (h : lookupKey d k = none) : set_item d k v = d ++ [(k, v)] := by
  simp [set_item, h]

/-- The key produced for a keyword argument is its camel-cased name,
whichever branch of the conversion applies. -/
theorem kwarg_transform_fst (kv : String × JVal) :
    (kwarg_transform kv).1 = to_camel_case kv.1 := by
  by_cases hc : to_camel_case kv.1 = "serializationOptions" ∧ isDict kv.2 <;>
    simp [kwarg_transform, hc]

/-- Closed form of the kwargs loop when the camel-cased keys are
pairwise distinct and all absent from the accumulated params: the loop
appends exactly the transformed entries, in order. -/
theorem apply_kwargs_eq_append :
    ∀ (kwargs params : List (String × JVal)),
    (∀ kv ∈ kwargs, lookupKey params (to_camel_case kv.1) = none) →
    (kwargs.map (fun kv => to_camel_case kv.1)).Nodup →
    apply_kwargs params kwargs = params ++ kwargs.map kwarg_transform
  | [], params, _, _ => by simp [apply_kwargs]
  | kv :: rest, params, hfresh, hnodup => by
    simp only [List.map_cons, List.nodup_cons] at hnodup
    have hkv0 : lookupKey params (kwarg_transform kv).1 = none := by
      rw [kwarg_transform_fst]
      exact hfresh kv (List.mem_cons_self kv rest)
    have hstep : apply_kwargs params (kv :: rest) =
        apply_kwargs (params ++ [kwarg_transform kv]) rest := by
      simp only [apply_kwargs, List.foldl_cons]
      congr 1
      rw [← set_item_of_none params (kwarg_transform kv).1
        (kwarg_transform kv).2 hkv0]
      by_cases hc : to_camel_case kv.1 = "serializationOptions" ∧ isDict kv.2 <;>
        simp [kwarg_transform, hc]
    have hfresh2 : ∀ kv2 ∈ rest,
        lookupKey (params ++ [kwarg_transform kv]) (to_camel_case kv2.1) = none := by
      intro kv2 hkv2
      rw [lookupKey_append_of_none _ params _
        (hfresh kv2 (List.mem_cons_of_mem kv hkv2))]
      have hne : (kwarg_transform kv).1 ≠ to_camel_case kv2.1 := by
        rw [kwarg_transform_fst]
        intro he
        exact hnodup.1 (he ▸ List.mem_map_of_mem (fun p => to_camel_case p.1) hkv2)
      have hpair : kwarg_transform kv =
          ((kwarg_transform kv).1, (kwarg_transform kv).2) := rfl
      rw [hpair]
      simp [lookupKey, hne]
    rw [hstep, apply_kwargs_eq_append rest (params ++ [kwarg_transform kv])
      hfresh2 hnodup.2]
    simp

/-- Closed form of `_convert_serialization_options` when the
camel-cased keys are pairwise distinct: every key is respelled and
every value — nested objects included — is kept identical, with no
further recursion. -/
theorem convert_serialization_options_eq_map :
    ∀ (opts acc : List (String × JVal)),
    (∀ kv ∈ opts, lookupKey acc (to_camel_case kv.1) = none) →
    (opts.map (fun kv => to_camel_case kv.1)).Nodup →
    opts.foldl (fun result kv => set_item result (to_camel_case kv.1) kv.2) acc =
      acc ++ opts.map (fun kv => (to_camel_case kv.1, kv.2))
  | [], acc, _, _ => by simp
  | kv :: rest, acc, hfresh, hnodup => by
    simp only [List.map_cons, List.nodup_cons] at hnodup
    have hkv0 : lookupKey acc (to_camel_case kv.1) = none :=
      hfresh kv (List.mem_cons_self kv rest)
    have hfresh2 : ∀ kv2 ∈ rest,
        lookupKey (acc ++ [(to_camel_case kv.1, kv.2)])
          (to_camel_case kv2.1) = none := by
      intro kv2 hkv2
      rw [lookupKey_append_of_none _ acc _
        (hfresh kv2 (List.mem_cons_of_mem kv hkv2))]
      have hne : to_camel_case kv.1 ≠ to_camel_case kv2.1 := by
        intro he
        exact hnodup.1 (he ▸ List.mem_map_of_mem (fun p => to_camel_case p.1) hkv2)
      simp [lookupKey, hne]
    rw [List.foldl_cons, set_item_of_none acc (to_camel_case kv.1) kv.2 hkv0,
      convert_serialization_options_eq_map rest
        (acc ++ [(to_camel_case kv.1, kv.2)]) hfresh2 hnodup.2]
    simp

/-- C9, counterexample. The claim says every argument value is
forwarded unchanged.  But a `serialization_options` keyword argument
whose value is a dict has that dict's own keys camel-cased: passing
`serialization_options={"max_dom_depth": 1}` to `evaluate` stores
`{"maxDomDepth": 1}` under `"serializationOptions"`, a value with a
different top-level key than the one supplied. -/
theorem C9_counterexample :
    lookupKey
        (evaluate_params (JVal.str "1+1") (JVal.obj [("context", JVal.str "c")])
          (JVal.bool false)
          [("serialization_options", JVal.obj [("max_dom_depth", JVal.num 1)])])
        "serializationOptions" =
      some (JVal.obj [("maxDomDepth", JVal.num 1)]) ∧
    (asDict (JVal.obj [("maxDomDepth", JVal.num 1)])).map Prod.fst ≠
      (asDict (JVal.obj [("max_dom_depth", JVal.num 1)])).map Prod.fst := by
  exact ⟨rfl, by decide⟩

/-- C9, amended: the boundary transform only respells keys — the
top-level keys of the kwargs dict, plus, for a `serialization_options`
argument whose value is a dict, the top-level keys of that one dict —
and forwards every other argument value unchanged, without recursing
into nested objects.  Stated for kwargs whose camel-cased keys are
pairwise distinct and distinct from the three fixed parameter keys, as
Python guarantees for distinct keyword arguments. -/
theorem C9_transform_respells_keys_only (expression target await_promise : JVal)
    (kwargs : List (String × JVal))
    (hfresh : ∀ kv ∈ kwargs,
      to_camel_case kv.1 ≠ "expression" ∧ to_camel_case kv.1 ≠ "target" ∧
        to_camel_case kv.1 ≠ "awaitPromise")
    (hnodup : (kwargs.map (fun kv => to_camel_case kv.1)).Nodup) :
    evaluate_params expression target await_promise kwargs =
      [("expression", expression), ("target", target),
        ("awaitPromise", await_promise)] ++ kwargs.map kwarg_transform ∧
    (∀ kv ∈ kwargs, ¬(to_camel_case kv.1 = "serializationOptions" ∧ isDict kv.2) →
      kwarg_transform kv = (to_camel_case kv.1, kv.2)) ∧
    (∀ opts : List (String × JVal),
      (opts.map (fun kv => to_camel_case kv.1)).Nodup →
      convert_serialization_options opts =
        opts.map (fun kv => (to_camel_case kv.1, kv.2))) := by
  refine ⟨?_, ?_, ?_⟩
  · apply apply_kwargs_eq_append
    · intro kv hkv
      obtain ⟨e1, e2, e3⟩ := hfresh kv hkv
      simp [lookupKey, Ne.symm e1, Ne.symm e2, Ne.symm e3]
    · exact hnodup
  · intro kv _ hc
    simp [kwarg_transform, hc]
  · intro opts hn
    have := convert_serialization_options_eq_map opts [] (by simp [lookupKey]) hn
    simpa [convert_serialization_options] using this

/-- Witness for the amended C9 at concrete keyword arguments. -/
theorem C9_witness :
    (∀ kv ∈ c9kwargs,
      to_camel_case kv.1 ≠ "expression" ∧ to_camel_case kv.1 ≠ "target" ∧
        to_camel_case kv.1 ≠ "awaitPromise") ∧
    (c9kwargs.map (fun kv => to_camel_case kv.1)).Nodup ∧
    (evaluate_params (JVal.str "1+1") JVal.null (JVal.bool false) c9kwargs =
        [("expression", JVal.str "1+1"), ("target", JVal.null),
          ("awaitPromise", JVal.bool false)] ++ c9kwargs.map kwarg_transform ∧
      (∀ kv ∈ c9kwargs,
        ¬(to_camel_case kv.1 = "serializationOptions" ∧ isDict kv.2) →
        kwarg_transform kv = (to_camel_case kv.1, kv.2)) ∧
      (∀ opts : List (String × JVal),
        (opts.map (fun kv => to_camel_case kv.1)).Nodup →
        convert_serialization_options opts =
          opts.map (fun kv => (to_camel_case kv.1, kv.2)))) :=
  ⟨by decide, by decide,
    C9_transform_respells_keys_only (JVal.str "1+1") JVal.null
      (JVal.bool false) c9kwargs (by decide) (by decide)⟩
